import Mathlib

/-!
Shallow embedding of the channel-based observable of `rs_observable`
(`src/rs_observable/src/chobservable.rs`) and proofs of its specified
properties.

Modelling conventions:
* A tokio `mpsc` bounded channel is modelled by its shared state
  (`Channel`): its fixed `capacity`, the FIFO `buffer` of values sent but
  not yet received, and a `closed` flag that is `true` once the consumer
  half (`Receiver`) has been dropped.  `Sender::send` is modelled as a
  completed send: it fails (carrying the value, as tokio's send error
  does) exactly when the channel is closed, and otherwise appends the
  value to the buffer; the suspension on a full buffer is a liveness
  aspect outside this state-based model, so a modelled send is a send
  that has completed.
* `async` methods on the Rust side become pure state-passing functions:
  each method takes the pre-state and returns the post-state (and any
  result).  Mutex acquisition orders the effects but does not change the
  sequential semantics embedded here.
* `u32` ids are modelled as `Nat` with u32 arithmetic wrapping modulo
  `2^32`: `next_id += 1` is `(· + 1) % 2^32`, the release-build semantics
  of the source (a debug build would abort at the wrap point instead).
* The consumer half returned by `register` is identified by the returned
  id: its queue is the `buffer` of the channel stored for that id.
-/

namespace RsObservable

/-- The error returned by a failed channel send, mirroring tokio's
`SendError<T>`: it carries the value that could not be delivered. -/
structure SendError (T : Type) where
  value : T
deriving DecidableEq

/-- Shared state of one tokio `mpsc::channel`: fixed capacity, FIFO buffer
of in-flight values, and whether the consumer half has been dropped. -/
structure Channel (T : Type) where
  capacity : Nat
  buffer : List T
  closed : Bool
deriving DecidableEq

/-- `mpsc::channel(cap)` creates a fresh open channel with an empty buffer. -/
def mpscChannel (T : Type) (cap : Nat) : Channel T :=
  { capacity := cap, buffer := [], closed := false }

/-- `Sender::send(data).await`, as a completed send: errors with the value
when the consumer half is dropped, otherwise enqueues the value. -/
def Channel.send {T : Type} (ch : Channel T) (data : T) :
    Except (SendError T) (Channel T) :=
  if ch.closed then Except.error ⟨data⟩
  else Except.ok { ch with buffer := ch.buffer ++ [data] }

/-- `StoredObserver<T>` from the source: the producer half of the
subscriber's channel together with the subscriber's id. -/
structure StoredObserver (T : Type) where
  tx : Channel T
  id : Nat
deriving DecidableEq

/-- `StoredObserver::new(id, tx)`. -/
def StoredObserver.new {T : Type} (id : Nat) (tx : Channel T) :
    StoredObserver T :=
  { tx := tx, id := id }

/-- `ChObservable<T>`: the registered observers (in insertion order, as the
`Vec` keeps them) and the next id to hand out. -/
structure ChObservable (T : Type) where
  observers : List (StoredObserver T)
  next_id : Nat
deriving DecidableEq

/-- `ChObservable::new()`. -/
def ChObservable.new {T : Type} : ChObservable T :=
  { observers := [], next_id := 1 }

/-- `ChObservable::register`: allocate the next id, increment the `u32`
counter (wrapping modulo `2^32`, the release-build overflow behaviour),
create a fresh bounded channel of capacity 10 and push its producer half
onto the observer table.  The returned `Nat` is the id handed back to the
caller together with the consumer half of the new channel. -/
def ChObservable.register {T : Type} (s : ChObservable T) :
    Nat × ChObservable T :=
  let id := s.next_id
  let tx := mpscChannel T 10
  (id, { observers := s.observers ++ [StoredObserver.new id tx],
         next_id := (s.next_id + 1) % 2 ^ 32 })

/-- The scan-and-remove loop of `ChObservable::unregister`: find the first
entry with the given id and remove it; no match leaves the list unchanged. -/
def removeFirstById {T : Type} :
    List (StoredObserver T) → Nat → List (StoredObserver T)
  | [], _ => []
  | o :: rest, observer_id =>
    if o.id = observer_id then rest
    else o :: removeFirstById rest observer_id

/-- `ChObservable::unregister(observer_id)`. -/
def ChObservable.unregister {T : Type} (s : ChObservable T)
    (observer_id : Nat) : ChObservable T :=
  { s with observers := removeFirstById s.observers observer_id }

/-- The fan-out loop of `ChObservable::notify`: send a clone of `data` to
each observer in table order; on the first failed send the `?` operator
aborts the loop, leaving the failing and all later observers untouched.
Returns the updated observers and the error of the failing send, if any. -/
def notifyLoop {T : Type} :
    List (StoredObserver T) → T →
      List (StoredObserver T) × Option (SendError T)
  | [], _ => ([], none)
  | o :: rest, data =>
    match o.tx.send data with
    | Except.error e => (o :: rest, some e)
    | Except.ok ch =>
      let r := notifyLoop rest data
      ({ o with tx := ch } :: r.1, r.2)

/-- `ChObservable::notify(data)`: run the fan-out loop over the observer
table and surface the first send error, if any, to the caller. -/
def ChObservable.notify {T : Type} (s : ChObservable T) (data : T) :
    ChObservable T × Except (SendError T) Unit :=
  let r := notifyLoop s.observers data
  ({ s with observers := r.1 },
   match r.2 with
   | some e => Except.error e
   | none => Except.ok ())

/-- The effect of one successful send on a stored observer: its channel
buffer grows by the sent value at the tail. -/
def pushValue {T : Type} (data : T) (o : StoredObserver T) :
    StoredObserver T :=
  { o with tx := { o.tx with buffer := o.tx.buffer ++ [data] } }

/-- `ChObservedValue<T>`: the cached current value and the internal
registry of `Option T` observers. -/
structure ChObservedValue (T : Type) where
  value : Option T
  observable : ChObservable (Option T)
deriving DecidableEq

/-- `ChObservedValue::new()`. -/
def ChObservedValue.new {T : Type} : ChObservedValue T :=
  { value := none, observable := ChObservable.new }

/-- `ChObservedValue::set_value_impl(v)`: store `v` into the guarded cell. -/
def ChObservedValue.set_value_impl {T : Type} (s : ChObservedValue T)
    (v : Option T) : ChObservedValue T :=
  { s with value := v }

/-- `ChObservedValue::notify_impl(v)`: publish `v` on the internal registry,
discarding the delivery result (`let _ = o.notify(v).await`). -/
def ChObservedValue.notify_impl {T : Type} (s : ChObservedValue T)
    (v : Option T) : ChObservedValue T :=
  { s with observable := (s.observable.notify v).1 }

/-- `ChObservedValue::set_value(v)`: store `Some(v.clone())`, then publish
the same value. -/
def ChObservedValue.set_value {T : Type} (s : ChObservedValue T) (v : T) :
    ChObservedValue T :=
  let new_v := some v
  (s.set_value_impl new_v).notify_impl new_v

/-- `ChObservedValue::reset_value()`: store `None`, then publish `None`. -/
def ChObservedValue.reset_value {T : Type} (s : ChObservedValue T) :
    ChObservedValue T :=
  (s.set_value_impl none).notify_impl none

/-- `ChObservedValue::register()`: pass-through to the internal registry. -/
def ChObservedValue.register {T : Type} (s : ChObservedValue T) :
    Nat × ChObservedValue T :=
  let p := s.observable.register
  (p.1, { s with observable := p.2 })

/-- `ChObservedValue::unregister(observer_id)`: pass-through to the
internal registry. -/
def ChObservedValue.unregister {T : Type} (s : ChObservedValue T)
    (observer_id : Nat) : ChObservedValue T :=
  { s with observable := s.observable.unregister observer_id }

/-- Reading the current cached value through
`ChObservedValue::value_ref()` (the `Option T` behind the returned
mutex). -/
def ChObservedValue.value_ref {T : Type} (s : ChObservedValue T) :
    Option T :=
  s.value

/-- One public operation on a `ChObservable`, for reasoning about call
sequences. -/
inductive Op (T : Type) where
  | register : Op T
  | unregister : Nat → Op T
  | notify : T → Op T

/-- Run a sequence of operations, collecting the ids returned by the
`register` calls in call order. -/
def runOps {T : Type} : ChObservable T → List (Op T) →
    ChObservable T × List Nat
  | s, [] => (s, [])
  | s, Op.register :: rest =>
    let p := s.register
    let q := runOps p.2 rest
    (q.1, p.1 :: q.2)
  | s, Op.unregister i :: rest => runOps (s.unregister i) rest
  | s, Op.notify v :: rest => runOps (s.notify v).1 rest

/-- Number of `register` calls in an operation sequence. -/
def numRegisters {T : Type} : List (Op T) → Nat
  | [] => 0
  | Op.register :: rest => numRegisters rest + 1
  | Op.unregister _ :: rest => numRegisters rest
  | Op.notify _ :: rest => numRegisters rest

/-- Characterization of the fan-out loop: with `k` the index of the first
observer whose consumer half is dropped (`k = length` when none is), the
loop appends the value to every buffer before position `k`, leaves
positions `k` onwards untouched, and reports an error carrying the value
exactly when such an observer exists. -/
theorem notifyLoop_eq {T : Type} (data : T) (obs : List (StoredObserver T)) :
    notifyLoop obs data =
      ((obs.take (obs.findIdx fun o => o.tx.closed)).map (pushValue data)
          ++ obs.drop (obs.findIdx fun o => o.tx.closed),
       if (obs.findIdx fun o => o.tx.closed) < obs.length
       then some ⟨data⟩ else none) := by
  induction obs with
  | nil => simp [notifyLoop]
  | cons o rest ih =>
    cases hc : o.tx.closed with
    | true =>
      simp [notifyLoop, Channel.send, hc, List.findIdx_cons]
    | false =>
      simp only [notifyLoop, Channel.send, hc, if_false, Bool.false_eq_true,
        List.findIdx_cons, cond_false, ih, List.take_succ_cons,
        List.drop_succ_cons, List.map_cons, List.cons_append,
        List.length_cons, Nat.add_lt_add_iff_right]
      simp [pushValue, hc]

/-- C1: a `publish` (`ChObservable::notify`) that returns `Ok` appends one
clone of the value at the tail of every registered subscriber's queue, in
table order; since every successful call appends at the tail, values of
successive successful calls sit in each queue in publish-call order. -/
theorem notify_ok_delivers {T : Type} (s : ChObservable T) (data : T)
    (h : (s.notify data).2 = Except.ok ()) :
    (s.notify data).1.observers = s.observers.map (pushValue data) := by
  by_cases hk :
      (s.observers.findIdx fun o => o.tx.closed) < s.observers.length
  · exfalso
    have herr : (s.notify data).2 = Except.error ⟨data⟩ := by
      show (match (notifyLoop s.observers data).2 with
        | some e => Except.error e
        | none => Except.ok ()) = _
      rw [notifyLoop_eq]
      simp [hk]
    rw [herr] at h
    exact Except.noConfusion h
  · have hk' : (s.observers.findIdx fun o => o.tx.closed)
        = s.observers.length :=
      Nat.le_antisymm (List.findIdx_le_length _) (Nat.le_of_not_lt hk)
    show (notifyLoop s.observers data).1 = _
    rw [notifyLoop_eq]
    simp [hk', List.take_length, List.drop_length]

/-- Witness for `notify_ok_delivers` at a concrete two-subscriber state. -/
theorem notify_ok_delivers_witness :
    (ChObservable.notify
        ⟨[⟨⟨10, [], false⟩, 1⟩, ⟨⟨10, [5], false⟩, 2⟩], 3⟩ (7 : Nat)).2
      = Except.ok ()
    ∧ (ChObservable.notify
        ⟨[⟨⟨10, [], false⟩, 1⟩, ⟨⟨10, [5], false⟩, 2⟩], 3⟩ (7 : Nat)).1.observers
      = [⟨⟨10, [], false⟩, 1⟩, ⟨⟨10, [5], false⟩, 2⟩].map (pushValue 7) :=
  ⟨rfl, notify_ok_delivers ⟨[⟨⟨10, [], false⟩, 1⟩, ⟨⟨10, [5], false⟩, 2⟩], 3⟩ 7 rfl⟩

/-- C2: when some registered subscriber's consumer half has been dropped,
`publish` (`ChObservable::notify`) returns an error carrying the value,
every subscriber strictly before the first dropped one (in table order)
has already received its clone, and the first dropped one and every
subscriber after it are left untouched — no rollback, no delivery past
the failure point. -/
theorem notify_error_aborts {T : Type} (s : ChObservable T) (data : T)
    (h : ∃ o ∈ s.observers, o.tx.closed = true) :
    (s.notify data).2 = Except.error ⟨data⟩
    ∧ (s.notify data).1.observers =
        (s.observers.take (s.observers.findIdx fun o => o.tx.closed)).map
            (pushValue data)
          ++ s.observers.drop (s.observers.findIdx fun o => o.tx.closed) := by
  have hk : (s.observers.findIdx fun o => o.tx.closed)
      < s.observers.length :=
    List.findIdx_lt_length_of_exists h
  constructor
  · show (match (notifyLoop s.observers data).2 with
      | some e => Except.error e
      | none => Except.ok ()) = _
    rw [notifyLoop_eq]
    simp [hk]
  · show (notifyLoop s.observers data).1 = _
    rw [notifyLoop_eq]

/-- Witness for `notify_error_aborts`: the middle of three subscribers is
dead; the first still receives the value, the last does not. -/
theorem notify_error_aborts_witness :
    (∃ o ∈ [(⟨⟨10, [], false⟩, 1⟩ : StoredObserver Nat),
            ⟨⟨10, [], true⟩, 2⟩, ⟨⟨10, [], false⟩, 3⟩],
        o.tx.closed = true)
    ∧ (ChObservable.notify
        ⟨[⟨⟨10, [], false⟩, 1⟩, ⟨⟨10, [], true⟩, 2⟩, ⟨⟨10, [], false⟩, 3⟩], 4⟩
        (7 : Nat)).2 = Except.error ⟨7⟩
    ∧ (ChObservable.notify
        ⟨[⟨⟨10, [], false⟩, 1⟩, ⟨⟨10, [], true⟩, 2⟩, ⟨⟨10, [], false⟩, 3⟩], 4⟩
        (7 : Nat)).1.observers
      = [⟨⟨10, [7], false⟩, 1⟩, ⟨⟨10, [], true⟩, 2⟩, ⟨⟨10, [], false⟩, 3⟩] := by
  refine ⟨by decide, ?_⟩
  have := notify_error_aborts
    ⟨[⟨⟨10, [], false⟩, 1⟩, ⟨⟨10, [], true⟩, 2⟩, ⟨⟨10, [], false⟩, 3⟩], 4⟩
    (7 : Nat) (by decide)
  exact ⟨this.1, by rw [this.2]; rfl⟩

/-- C7: `publish` (`ChObservable::notify`) never modifies the subscriber
table: whether it returns `Ok` or a delivery error, the registered ids,
their order, the subscriber count and `next_id` are unchanged — in
particular a dead subscriber is never automatically unregistered. -/
theorem notify_preserves_table {T : Type} (s : ChObservable T) (data : T) :
    (s.notify data).1.observers.map (fun o => o.id)
      = s.observers.map (fun o => o.id)
    ∧ (s.notify data).1.observers.length = s.observers.length
    ∧ (s.notify data).1.next_id = s.next_id := by
  have hids : (s.notify data).1.observers.map (fun o => o.id)
      = s.observers.map (fun o => o.id) := by
    show (notifyLoop s.observers data).1.map _ = _
    rw [notifyLoop_eq]
    rw [List.map_append, List.map_map]
    have hpush : ((fun o => o.id) ∘ pushValue data)
        = (fun o : StoredObserver T => o.id) := rfl
    rw [hpush, List.map_take, List.map_drop, List.take_append_drop]
  refine ⟨hids, ?_, rfl⟩
  have := congrArg List.length hids
  simpa using this

/-- The ids collected from any operation sequence: one per `register`
call, the wrapped consecutive values of the u32 counter starting at the
pre-state's `next_id`. -/
theorem runOps_ids_mod {T : Type} (ops : List (Op T)) :
    ∀ s : ChObservable T, s.next_id < 2 ^ 32 →
      (runOps s ops).2
        = (List.range (numRegisters ops)).map
            (fun k => (s.next_id + k) % 2 ^ 32) := by
  induction ops with
  | nil => intro s _; rfl
  | cons op rest ih =>
    intro s hs
    cases op with
    | register =>
      show (s.register).1 :: (runOps (s.register).2 rest).2 = _
      rw [ih (s.register).2 (Nat.mod_lt _ (by norm_num))]
      show s.next_id :: (List.range (numRegisters rest)).map
          (fun k => ((s.next_id + 1) % 2 ^ 32 + k) % 2 ^ 32)
        = (List.range (numRegisters rest + 1)).map
            (fun k => (s.next_id + k) % 2 ^ 32)
      rw [List.range_succ_eq_map, List.map_cons, List.map_map]
      congr 1
      · show s.next_id = (s.next_id + 0) % 2 ^ 32
        rw [Nat.add_zero, Nat.mod_eq_of_lt hs]
      · apply List.map_congr_left
        intro k _
        show ((s.next_id + 1) % 2 ^ 32 + k) % 2 ^ 32
          = (s.next_id + (k + 1)) % 2 ^ 32
        rw [Nat.mod_add_mod]
        congr 1
        omega
    | unregister i =>
      show (runOps (s.unregister i) rest).2 = _
      rw [ih (s.unregister i) hs]
      rfl
    | notify v =>
      show (runOps (s.notify v).1 rest).2 = _
      rw [ih (s.notify v).1 hs]
      rfl

/-- An all-`register` sequence performs exactly that many registrations. -/
theorem numRegisters_replicate {T : Type} (n : Nat) :
    numRegisters (List.replicate n (Op.register : Op T)) = n := by
  induction n with
  | zero => rfl
  | succ n ih =>
    rw [List.replicate_succ]
    show numRegisters (List.replicate n (Op.register : Op T)) + 1 = n + 1
    rw [ih]

/-- C3 counterexample: after `2^32 + 1` registrations on a fresh
`ChObservable`, the u32 counter has wrapped and id 1 is handed out a
second time — the returned ids are neither strictly increasing nor
pairwise distinct, so the claim fails on sequences that exhaust the
counter. -/
theorem register_ids_wrap_counterexample :
    ¬ ((runOps (ChObservable.new : ChObservable Nat)
          (List.replicate (2 ^ 32 + 1) Op.register)).2.Pairwise (· < ·))
    ∧ ¬ ((runOps (ChObservable.new : ChObservable Nat)
          (List.replicate (2 ^ 32 + 1) Op.register)).2.Nodup) := by
  have hids : (runOps (ChObservable.new : ChObservable Nat)
        (List.replicate (2 ^ 32 + 1) Op.register)).2
      = (List.range (2 ^ 32 + 1)).map (fun k => (1 + k) % 2 ^ 32) := by
    rw [runOps_ids_mod _ _ (by decide), numRegisters_replicate]
    rfl
  have hlen : ((List.range (2 ^ 32 + 1)).map
      (fun k => (1 + k) % 2 ^ 32)).length = 2 ^ 32 + 1 := by
    rw [List.length_map, List.length_range]
  constructor
  · intro h
    rw [hids] at h
    have h2 := List.pairwise_iff_getElem.mp h 0 (2 ^ 32)
      (by rw [hlen]; decide) (by rw [hlen]; decide) (by decide)
    simp only [List.getElem_map, List.getElem_range] at h2
    exact absurd h2 (by decide)
  · intro h
    rw [hids] at h
    have h2 := List.pairwise_iff_getElem.mp h 0 (2 ^ 32)
      (by rw [hlen]; decide) (by rw [hlen]; decide) (by decide)
    simp only [List.getElem_map, List.getElem_range] at h2
    exact h2 (by decide)

/-- C3 (amended): on a fresh `ChObservable`, for any sequence of
`register`/`unregister`/`notify` operations whose number of `register`
calls stays below `2^32` — the wrap-around point of the u32 counter — the
ids returned by the `register` calls are exactly 1, 2, 3, … in call
order: seeded at 1, incremented by exactly 1 per registration, never
reset or decremented, hence strictly increasing and pairwise distinct,
and never reassigned after an `unregister`. -/
theorem register_ids_strictly_increasing_bounded {T : Type}
    (ops : List (Op T)) (h : numRegisters ops < 2 ^ 32) :
    (runOps (ChObservable.new : ChObservable T) ops).2
      = List.range' 1 (numRegisters ops)
    ∧ ((runOps (ChObservable.new : ChObservable T) ops).2).Pairwise (· < ·) := by
  have hids : (runOps (ChObservable.new : ChObservable T) ops).2
      = List.range' 1 (numRegisters ops) := by
    rw [runOps_ids_mod _ _ (show (1 : Nat) < 2 ^ 32 by norm_num),
      List.range'_eq_map_range]
    apply List.map_congr_left
    intro k hk
    have hk' : k < numRegisters ops := List.mem_range.mp hk
    have hlt : 1 + k < numRegisters ops + 1 := by omega
    exact Nat.mod_eq_of_lt (Nat.lt_of_lt_of_le hlt h)
  refine ⟨hids, ?_⟩
  rw [hids]
  exact List.pairwise_lt_range' 1 (numRegisters ops)

/-- Witness for `register_ids_strictly_increasing_bounded` on a concrete
register/register/unregister/register sequence. -/
theorem register_ids_strictly_increasing_bounded_witness :
    numRegisters
        [Op.register, Op.register, Op.unregister 1, (Op.register : Op Nat)]
      < 2 ^ 32
    ∧ (runOps (ChObservable.new : ChObservable Nat)
        [Op.register, Op.register, Op.unregister 1, Op.register]).2
      = [1, 2, 3] :=
  ⟨by decide,
   (register_ids_strictly_increasing_bounded
      [Op.register, Op.register, Op.unregister 1, Op.register]
      (by decide)).1⟩

/-- No entry carries the id: the scan loop removes nothing. -/
theorem removeFirstById_not_found {T : Type}
    (obs : List (StoredObserver T)) (i : Nat)
    (h : ∀ o ∈ obs, o.id ≠ i) : removeFirstById obs i = obs := by
  induction obs with
  | nil => rfl
  | cons o rest ih =>
    have ho : o.id ≠ i := h o (List.mem_cons_self o rest)
    show (if o.id = i then rest else o :: removeFirstById rest i) = o :: rest
    rw [if_neg ho, ih (fun o' ho' => h o' (List.mem_cons_of_mem o ho'))]

/-- The scan loop removes exactly the first entry carrying the id. -/
theorem removeFirstById_found {T : Type}
    (l r : List (StoredObserver T)) (o : StoredObserver T) (i : Nat)
    (ho : o.id = i) (hl : ∀ o' ∈ l, o'.id ≠ i) :
    removeFirstById (l ++ o :: r) i = l ++ r := by
  induction l with
  | nil =>
    show (if o.id = i then r else _) = r
    rw [if_pos ho]
  | cons a l ih =>
    have ha : a.id ≠ i := hl a (List.mem_cons_self a l)
    show (if a.id = i then l ++ o :: r else a :: removeFirstById (l ++ o :: r) i)
      = a :: (l ++ r)
    rw [if_neg ha, ih (fun o' ho' => hl o' (List.mem_cons_of_mem a ho'))]

/-- C6: `ChObservable::unregister(id)` removes the (first, hence under the
registry's unique-id discipline the unique) table entry carrying `id` when
one is present — the entries around it survive in order, the subscriber
count drops by exactly one and `next_id` is untouched — and is a silent
no-op leaving the state exactly unchanged when no entry carries `id`. -/
theorem unregister_spec {T : Type} (s : ChObservable T) (i : Nat) :
    ((∀ o ∈ s.observers, o.id ≠ i) → s.unregister i = s)
    ∧ (∀ (l r : List (StoredObserver T)) (o : StoredObserver T),
        s.observers = l ++ o :: r → o.id = i → (∀ o' ∈ l, o'.id ≠ i) →
        (s.unregister i).observers = l ++ r
        ∧ (s.unregister i).observers.length + 1 = s.observers.length
        ∧ (s.unregister i).next_id = s.next_id) := by
  constructor
  · intro h
    show { s with observers := removeFirstById s.observers i } = s
    rw [removeFirstById_not_found s.observers i h]
  · intro l r o hobs ho hl
    have hrem : (s.unregister i).observers = l ++ r := by
      show removeFirstById s.observers i = l ++ r
      rw [hobs]
      exact removeFirstById_found l r o i ho hl
    refine ⟨hrem, ?_, rfl⟩
    rw [hrem, hobs]
    simp [Nat.add_assoc, Nat.add_comm 1 r.length]

/-- Witness for `unregister_spec`: unknown id 5 is a no-op; removing id 1
from a two-subscriber table keeps exactly the other subscriber. -/
theorem unregister_spec_witness :
    ((ChObservable.unregister
        ⟨[⟨⟨10, [], false⟩, 1⟩, ⟨⟨10, [], false⟩, 2⟩], 3⟩ (5 : Nat))
      = (⟨[⟨⟨10, [], false⟩, 1⟩, ⟨⟨10, [], false⟩, 2⟩], 3⟩ :
          ChObservable Nat))
    ∧ ((ChObservable.unregister
        ⟨[⟨⟨10, [], false⟩, 1⟩, ⟨⟨10, [], false⟩, 2⟩], 3⟩ (1 : Nat)).observers
      = [(⟨⟨10, [], false⟩, 2⟩ : StoredObserver Nat)]) := by
  constructor
  · exact (unregister_spec
      ⟨[⟨⟨10, [], false⟩, 1⟩, ⟨⟨10, [], false⟩, 2⟩], 3⟩ 5).1 (by decide)
  · exact ((unregister_spec
      ⟨[⟨⟨10, [], false⟩, 1⟩, ⟨⟨10, [], false⟩, 2⟩], 3⟩ 1).2
      [] [⟨⟨10, [], false⟩, 2⟩] ⟨⟨10, [], false⟩, 1⟩ rfl rfl
      (by intro o' h; cases h)).1

/-- C8: `ChObservable::register` is total (never fails): it returns the
current `next_id` as the new subscriber's id, bumps `next_id` by one (in
the wrapping u32 arithmetic of the source), and appends to the table a
fresh open bounded channel of capacity 10 with an empty queue, keyed by
the returned id — the consumer half handed back to the caller is the
receiving end of exactly that stored channel, and the subscriber count
grows by exactly one. -/
theorem register_spec {T : Type} (s : ChObservable T) :
    (s.register).1 = s.next_id
    ∧ (s.register).2.next_id = (s.next_id + 1) % 2 ^ 32
    ∧ (s.register).2.observers
        = s.observers ++ [StoredObserver.new s.next_id (mpscChannel T 10)]
    ∧ (s.register).2.observers.length = s.observers.length + 1 := by
  refine ⟨rfl, rfl, rfl, ?_⟩
  show (s.observers ++ [StoredObserver.new s.next_id (mpscChannel T 10)]).length
    = s.observers.length + 1
  simp

/-- C4: round-trip on the Observed Value — after `set_value(v)` the cached
current value read through `value_ref` is `Some v`, and after
`reset_value()` it is `None`. -/
theorem observed_value_roundtrip {T : Type} (s : ChObservedValue T) (v : T) :
    (s.set_value v).value_ref = some v
    ∧ (s.reset_value).value_ref = none :=
  ⟨rfl, rfl⟩

/-- C5: `set_value(v)` is exactly the two-step sequence "store
`Some(v.clone())` into the cell, then publish the same `Some(v.clone())`
on the internal registry", in that order: the state handed to the publish
step already holds the new value in its cell, and the publish step never
touches the cell; `reset_value()` is the same sequence with `None`. -/
theorem set_value_stores_then_publishes {T : Type}
    (s : ChObservedValue T) (v : T) :
    s.set_value v
      = ChObservedValue.notify_impl (s.set_value_impl (some v)) (some v)
    ∧ (s.set_value_impl (some v)).value = some v
    ∧ (∀ (u : ChObservedValue T) (w : Option T),
        (u.notify_impl w).value = u.value)
    ∧ s.reset_value
        = ChObservedValue.notify_impl (s.set_value_impl none) none
    ∧ (s.set_value_impl (none : Option T)).value = none :=
  ⟨rfl, rfl, fun _ _ => rfl, rfl, rfl⟩

/-- C9: `ChObservedValue::register` hands the internal registry's
`register` straight through: the stored channel for the new subscriber is
fresh with an empty buffer, so the new subscriber's queue holds nothing —
no synthetic initial notification of the cached current value — and only
values published after this registration can ever enter it. -/
theorem observed_register_empty_queue {T : Type} (s : ChObservedValue T) :
    (s.register).2.observable.observers
      = s.observable.observers
        ++ [StoredObserver.new s.observable.next_id (mpscChannel (Option T) 10)]
    ∧ (s.register).2.observable.observers.getLast?
        = some (StoredObserver.new (s.register).1 (mpscChannel (Option T) 10))
    ∧ (StoredObserver.new (s.register).1 (mpscChannel (Option T) 10)).tx.buffer
        = ([] : List (Option T))
    ∧ (s.register).2.value = s.value := by
  refine ⟨rfl, ?_, rfl, rfl⟩
  exact List.getLast?_concat _

/-- C10: `set_value`/`reset_value` silently discard delivery errors: even
when the internal publish on the already-updated state returns a delivery
error, the call completes normally (it is total and returns no error
indication) and the cached cell still holds the new value — `Some v`
after `set_value(v)`, `None` after `reset_value()`. -/
theorem set_value_discards_delivery_errors {T : Type}
    (s : ChObservedValue T) (v : T) (e : SendError (Option T)) :
    (((s.set_value_impl (some v)).observable.notify (some v)).2
        = Except.error e → (s.set_value v).value_ref = some v)
    ∧ (((s.set_value_impl none).observable.notify
          (none : Option T)).2 = Except.error e →
        (s.reset_value).value_ref = none) :=
  ⟨fun _ => rfl, fun _ => rfl⟩

/-- Witness for `set_value_discards_delivery_errors`: with a single dead
subscriber the internal publish fails, yet the cell reads back the new
value. -/
theorem set_value_discards_delivery_errors_witness :
    (((ChObservedValue.set_value_impl
          (⟨none, ⟨[⟨⟨10, [], true⟩, 1⟩], 2⟩⟩ : ChObservedValue Nat)
          (some 7)).observable.notify (some 7)).2
        = Except.error ⟨some 7⟩)
    ∧ ((ChObservedValue.set_value
          (⟨none, ⟨[⟨⟨10, [], true⟩, 1⟩], 2⟩⟩ : ChObservedValue Nat)
          7).value_ref = some 7) :=
  ⟨rfl,
   (set_value_discards_delivery_errors
      (⟨none, ⟨[⟨⟨10, [], true⟩, 1⟩], 2⟩⟩ : ChObservedValue Nat)
      7 ⟨some 7⟩).1 rfl⟩

end RsObservable
